import Mathlib

/-!
Shallow embedding of the mail-generator backend (`src/app.py`) and proofs of
the specification claims about it.

The Python program is a Flask app with three endpoints.  Its pure logic
(extension check, filename sanitizer, encoding-detection loop, mapping parse,
render-context construction, the per-row generation fold, the zero-success
check and the archive layout) is translated here directly.  Calls into
external collaborators (pandas CSV parsing, docxtpl template loading and
rendering, docx2pdf conversion, JSON parsing) are modelled as explicit oracle
parameters: each oracle stands for the result the library call returns for
the concrete request being processed, so every control-flow decision the
handler makes on those results is represented faithfully.
-/

namespace MailGen

/-- A CSV row (`pandas` Series): an ordered association of column name to
string value.  `str(...)` coercion in the source means values are strings. -/
abbrev Row := List (String × String)

/-- Dictionary lookup, modelling Python `d.get(k)` / `d[k]` on the
association lists used for rows, mappings and contexts. -/
def lookup (l : List (String × String)) (k : String) : Option String :=
  (l.find? (fun e => e.1 == k)).map (fun e => e.2)

/-- `ALLOWED_EXTENSIONS = {'docx', 'csv'}` (app.py line 23). -/
def ALLOWED_EXTENSIONS : List String := ["docx", "csv"]

/-- The substring after the last `'.'`, modelling
`filename.rsplit('.', 1)[1]` for a filename containing a dot. -/
def afterLastDot (s : String) : String :=
  ⟨((s.data.reverse).takeWhile (fun c => c != '.')).reverse⟩

/-- Python `str.lower()`, character by character.  Equal to Lean's
`String.toLower` (see `lower_eq_toLower` below); spelled on `data` so that
the kernel can evaluate it. -/
def lower (s : String) : String :=
  ⟨s.data.map Char.toLower⟩

/-- `allowed_file` (app.py lines 29-30):
`'.' in filename and filename.rsplit('.', 1)[1].lower() in ALLOWED_EXTENSIONS`. -/
def allowed_file (filename : String) : Bool :=
  filename.data.contains '.' &&
    ALLOWED_EXTENSIONS.contains (lower (afterLastDot filename))

/-- The character class of `re.sub(r'[<>:"/\\|?*]', '_', ...)`
(app.py line 34). -/
def badChars : List Char := ['<', '>', ':', '"', '/', '\\', '|', '?', '*']

/-- `sanitize_filename` (app.py lines 32-34): replace every character of the
class `[<>:"/\|?*]` by an underscore, leaving all other characters alone. -/
def sanitize_filename (s : String) : String :=
  ⟨s.data.map (fun c => if c ∈ badChars then '_' else c)⟩

/-- The fixed encoding priority list of `detect_csv_encoding`
(app.py line 38). -/
def encodings : List String := ["utf-8", "utf-8-sig", "latin-1", "cp1252", "iso-8859-1"]

/-- The `for encoding in encodings: try ... except: continue` loop of
`detect_csv_encoding` (app.py lines 39-45) over an arbitrary candidate list;
`ok e` models whether `pd.read_csv(file_path, sep=';', encoding=e, nrows=1)`
succeeds on the given CSV bytes.  Falls through to the literal `'utf-8'`. -/
def detectLoop (ok : String → Bool) : List String → String
  | [] => "utf-8"
  | e :: rest => if ok e then e else detectLoop ok rest

/-- `detect_csv_encoding` (app.py lines 36-45); the CSV bytes enter only
through the header-parse oracle `ok`. -/
def detect_csv_encoding (ok : String → Bool) : String :=
  detectLoop ok encodings

/- ------------------------------------------------------------------ -/
/- The generate pipeline (app.py lines 134-257). -/

/-- The mapping-field handling of `generate_documents` (app.py lines
144, 150-154): `mapping = request.form.get('mapping', '{}')`, then
`field_mapping = json.loads(mapping) if mapping != '{}' else {}` with a bare
`except` defaulting to `{}`.  `jsonParse` models `json.loads` restricted to
string-to-string JSON objects; `none` models any parse exception. -/
def parse_mapping (jsonParse : String → Option (List (String × String)))
    (mapping? : Option String) : List (String × String) :=
  let mapping := mapping?.getD "\x7b\x7d"
  if mapping ≠ "\x7b\x7d" then (jsonParse mapping).getD [] else []

/-- The render-context construction of the row loop (app.py lines 186-193):
for each placeholder, look it up through the field mapping (defaulting to the
placeholder name), then take the row's value at that column if the column is
in the row's index, else the visible marker `[<placeholder>]`. -/
def build_context (phs : List String) (field_mapping : List (String × String))
    (row : Row) : List (String × String) :=
  phs.map (fun var_name =>
    let csv_column := (lookup field_mapping var_name).getD var_name
    match lookup row csv_column with
    | some v => (var_name, v)
    | none => (var_name, "[" ++ var_name ++ "]"))

/-- The output base-name derivation (app.py lines 199-204):
`email = str(row.get('Email', f'row_{idx}'))`;
`org = str(row.get('Организация', ''))`;
`safe_email = sanitize_filename(email)`;
`safe_org = sanitize_filename(org) if org else f'doc_{idx}'`;
the base name is `f"{safe_email}_{safe_org}"`. -/
def output_base (row : Row) (idx : Nat) : String :=
  let email := (lookup row "Email").getD ("row_" ++ toString idx)
  let org := (lookup row "Организация").getD ""
  let safe_email := sanitize_filename email
  let safe_org := if org ≠ "" then sanitize_filename org else "doc_" ++ toString idx
  safe_email ++ "_" ++ safe_org

/-- A directory of files as a list of (name, bytes) pairs; writing to an
existing name overwrites it in place (`doc.save` / `convert` semantics),
otherwise the file is appended. -/
def fswrite (dir : List (String × String)) (name content : String) :
    List (String × String) :=
  if (dir.map (fun e => e.1)).contains name then
    dir.map (fun e => if e.1 = name then (name, content) else e)
  else
    dir ++ [(name, content)]

/-- The mutable state of the generation loop (app.py lines 180-181 plus the
contents of `output_docs` and `output_docs/pdf_files` on disk). -/
structure GenState where
  success_count : Nat
  error_list : List String
  docx_files : List (String × String)
  pdf_files : List (String × String)
  deriving Repr, DecidableEq

/-- One iteration of `for idx, row in data.iterrows()` (app.py lines
183-222).  `render ctx` models `DocxTemplate(template_path); doc.render(ctx);
doc.save(...)` producing the rendered bytes, or the exception message caught
by the row-level `except`; `convert` models `docx2pdf.convert`, whose failure
(`none`) is swallowed.  On a row failure the error entry
`f"Строка {idx + 1}: {e}"` is appended and nothing else changes; on success
the document is written under the derived name and the count incremented. -/
def process_row (render : List (String × String) → Except String String)
    (convert : String → Option String)
    (phs : List String) (field_mapping : List (String × String))
    (st : GenState) (ir : Nat × Row) : GenState :=
  let idx := ir.1
  let row := ir.2
  let context := build_context phs field_mapping row
  match render context with
  | .error e =>
      { st with error_list :=
          st.error_list ++ ["Строка " ++ toString (idx + 1) ++ ": " ++ e] }
  | .ok content =>
      let base := output_base row idx
      let docx_files := fswrite st.docx_files (base ++ ".docx") content
      let pdf_files :=
        match convert content with
        | some pdf => fswrite st.pdf_files (base ++ ".pdf") pdf
        | none => st.pdf_files
      { st with
          docx_files := docx_files
          pdf_files := pdf_files
          success_count := st.success_count + 1 }

/-- The archive builder (app.py lines 228-234): `os.walk(output_folder)`
packs the top-level `.docx` files at the archive root and the files of the
`pdf_files` subdirectory under the relative path `pdf_files/...`. -/
def archive (st : GenState) : List (String × String) :=
  st.docx_files ++ st.pdf_files.map (fun e => ("pdf_files/" ++ e.1, e.2))

/-- The observable outcome of one `POST /api/generate` request. -/
structure GenOutcome where
  status : Nat
  error? : Option String
  zip? : Option (List (String × String))
  dirCreated : Bool
  dirRemoved : Bool
  persisted : List String
  deriving Repr, DecidableEq

/-- `generate_documents` (app.py lines 134-257).  Oracles:
`jsonParse` = `json.loads` on the mapping field; `csvParse` = the combined
`detect_csv_encoding` + `pd.read_csv` of lines 168-169 (error = the raised
exception's message); `placeholders` = `DocxTemplate(template_path)` +
`get_undeclared_variables` (lines 177 and 187 — the same template file, hence
the same variable set each row); `render`/`convert` as in `process_row`.
Request: the two uploaded filenames (`none` = field missing) and the optional
`mapping` form field.  The outcome records the HTTP status, the error message
or archive, whether the `tempfile.mkdtemp()` work directory was created and
whether it was removed again before returning, and which uploads were saved
into it. -/
def generate_documents
    (jsonParse : String → Option (List (String × String)))
    (csvParse : Except String (List Row))
    (placeholders : Except String (List String))
    (render : List (String × String) → Except String String)
    (convert : String → Option String)
    (template? csv? mapping? : Option String) : GenOutcome :=
  match template?, csv? with
  | some tname, some cname =>
    if tname = "" ∨ cname = "" then
      ⟨400, some "Файлы не выбраны", none, false, false, []⟩
    else
      let field_mapping := parse_mapping jsonParse mapping?
      -- line 157: work_dir = tempfile.mkdtemp(); lines 161-165: both uploads
      -- are saved into it before any parsing is attempted
      let persisted := [tname, cname]
      match csvParse with
      | .error e =>
          -- lines 252-254: the inner except removes work_dir and returns 400
          ⟨400, some ("Ошибка обработки: " ++ e), none, true, true, persisted⟩
      | .ok rows =>
        match placeholders with
        | .error e =>
            ⟨400, some ("Ошибка обработки: " ++ e), none, true, true, persisted⟩
        | .ok phs =>
          let st := rows.enum.foldl
            (process_row render convert phs field_mapping) ⟨0, [], [], []⟩
          if st.success_count = 0 then
            -- lines 224-225: early return WITHOUT shutil.rmtree(work_dir)
            ⟨400, some ("Не удалось создать документы. Ошибки: "
                ++ String.intercalate ", " (st.error_list.take 3)),
              none, true, false, persisted⟩
          else
            -- lines 228-250: zip the output tree, rmtree, send the archive
            ⟨200, none, some (archive st), true, true, persisted⟩
  | _, _ => ⟨400, some "Шаблон и CSV обязательны", none, false, false, []⟩

/- ------------------------------------------------------------------ -/
/- The two preview endpoints (app.py lines 56-132). -/

/-- Outcome of `POST /api/preview-template`. -/
structure TplPrevOutcome where
  status : Nat
  error? : Option String
  variables? : Option (List String)
  persisted : Bool
  tempRemoved : Bool
  deriving Repr, DecidableEq

/-- `preview_template` (app.py lines 56-90).  `extractVars` models
`DocxTemplate(temp_path).get_undeclared_variables()`; `persisted` records
whether the upload was saved to the scratch location (line 72), and
`tempRemoved` whether it was removed again (lines 78, 85-86). -/
def preview_template (extractVars : Except String (List String))
    (file? : Option String) : TplPrevOutcome :=
  match file? with
  | none => ⟨400, some "Шаблон не загружен", none, false, false⟩
  | some fname =>
    if fname = "" then ⟨400, some "Файл шаблона пуст", none, false, false⟩
    else if !allowed_file fname then
      ⟨400, some "Недопустимый формат шаблона", none, false, false⟩
    else
      match extractVars with
      | .ok vars => ⟨200, none, some vars, true, true⟩
      | .error e =>
          ⟨400, some ("Ошибка при чтении шаблона: " ++ e), none, true, true⟩

/-- Outcome of `POST /api/preview-csv`. -/
structure CsvPrevOutcome where
  status : Nat
  error? : Option String
  columns? : Option (List String)
  preview? : Option (List (List String))
  rowCount? : Option Nat
  persisted : Bool
  tempRemoved : Bool
  deriving Repr, DecidableEq

/-- `preview_csv` (app.py lines 92-132).  `csvData` models
`detect_csv_encoding` + `pd.read_csv` on the saved upload, yielding the
column list and the row values; the handler then takes `df.head(3)` as the
preview and `len(df)` as the row count. -/
def preview_csv (csvData : Except String (List String × List (List String)))
    (file? : Option String) : CsvPrevOutcome :=
  match file? with
  | none => ⟨400, some "CSV не загружен", none, none, none, false, false⟩
  | some fname =>
    if fname = "" then ⟨400, some "Файл CSV пуст", none, none, none, false, false⟩
    else if !allowed_file fname then
      ⟨400, some "Недопустимый формат CSV", none, none, none, false, false⟩
    else
      match csvData with
      | .ok data =>
          ⟨200, none, some data.1, some (data.2.take 3), some data.2.length,
            true, true⟩
      | .error e =>
          ⟨400, some ("Ошибка при чтении CSV: " ++ e), none, none, none,
            true, true⟩

/- ------------------------------------------------------------------ -/
/- Claim C6: the sanitizer is total, produces no illegal character and
   is idempotent. -/

/-- The per-character replacement never produces a character of the class. -/
theorem repl_not_bad (a : Char) :
    (if a ∈ badChars then '_' else a) ∉ badChars := by
  by_cases h : a ∈ badChars
  · simp only [h, if_true]
    decide
  · rw [if_neg h]
    exact h

/-- C6 — `sanitize_filename` is a total function (it is a plain Lean `def`),
its output contains none of the characters `< > : " / \ | ? *`, and it is
idempotent: sanitising twice equals sanitising once. -/
theorem sanitize_filename_safe_idempotent (s : String) :
    (∀ c ∈ badChars, c ∉ (sanitize_filename s).data) ∧
    sanitize_filename (sanitize_filename s) = sanitize_filename s := by
  constructor
  · intro c hc hmem
    simp only [sanitize_filename] at hmem
    obtain ⟨a, _, ha⟩ := List.mem_map.mp hmem
    exact repl_not_bad a (ha ▸ hc)
  · simp only [sanitize_filename, List.map_map]
    congr 1
    apply List.map_congr_left
    intro a _
    simp only [Function.comp_apply]
    have h := repl_not_bad a
    simp [h]

/-- Witness for C6 at a concrete string containing illegal characters. -/
theorem sanitize_filename_safe_idempotent_witness :
    ('<' ∉ (sanitize_filename "a<b*c").data) ∧
    sanitize_filename (sanitize_filename "a<b*c") = sanitize_filename "a<b*c" :=
  ⟨(sanitize_filename_safe_idempotent "a<b*c").1 '<' (by decide),
   (sanitize_filename_safe_idempotent "a<b*c").2⟩

/- ------------------------------------------------------------------ -/
/- Claim C7: the encoding detector returns the first succeeding encoding,
   falls back to 'utf-8' (the first of the list), and is deterministic in
   the bytes (i.e. in the parse oracle restricted to the tried list). -/

/-- The loop is exactly first-match with `'utf-8'` as fallback. -/
theorem detectLoop_eq_find (ok : String → Bool) (l : List String) :
    detectLoop ok l = (l.find? ok).getD "utf-8" := by
  induction l with
  | nil => rfl
  | cons e rest ih =>
    simp only [detectLoop, List.find?]
    cases h : ok e <;> simp [h, ih]

/-- C7 — `detect_csv_encoding` returns the first encoding of the fixed list
under which the header-only parse succeeds, falling back to `'utf-8'` — which
is the first element of the list — when none succeeds; and its result depends
only on the parse outcomes on the tried encodings, so it is deterministic
given the same bytes and the same encoding list. -/
theorem detect_csv_encoding_spec (ok : String → Bool) :
    detect_csv_encoding ok = (encodings.find? ok).getD "utf-8" ∧
    ((∀ e ∈ encodings, ok e = false) → detect_csv_encoding ok = "utf-8") ∧
    encodings.head? = some "utf-8" ∧
    (∀ ok' : String → Bool, (∀ e ∈ encodings, ok e = ok' e) →
      detect_csv_encoding ok = detect_csv_encoding ok') := by
  refine ⟨detectLoop_eq_find ok encodings, ?_, rfl, ?_⟩
  · intro hall
    simp only [detect_csv_encoding, encodings, detectLoop]
    have h1 := hall "utf-8" (by simp [encodings])
    have h2 := hall "utf-8-sig" (by simp [encodings])
    have h3 := hall "latin-1" (by simp [encodings])
    have h4 := hall "cp1252" (by simp [encodings])
    have h5 := hall "iso-8859-1" (by simp [encodings])
    simp [h1, h2, h3, h4, h5]
  · intro ok' hagree
    simp only [detect_csv_encoding, encodings, detectLoop]
    have h1 := hagree "utf-8" (by simp [encodings])
    have h2 := hagree "utf-8-sig" (by simp [encodings])
    have h3 := hagree "latin-1" (by simp [encodings])
    have h4 := hagree "cp1252" (by simp [encodings])
    have h5 := hagree "iso-8859-1" (by simp [encodings])
    rw [h1, h2, h3, h4, h5]

/-- Witness for C7: with a parse oracle that succeeds only on `cp1252`, the
detector picks `cp1252` (the first success in list order). -/
theorem detect_csv_encoding_spec_witness :
    detect_csv_encoding (fun e => e == "cp1252")
      = (encodings.find? (fun e => e == "cp1252")).getD "utf-8" ∧
    detect_csv_encoding (fun _ => false) = "utf-8" :=
  ⟨(detect_csv_encoding_spec (fun e => e == "cp1252")).1,
   (detect_csv_encoding_spec (fun _ => false)).2.1 (fun _ _ => rfl)⟩

/- ------------------------------------------------------------------ -/
/- Claim C1: the generate handler is supposed to reject disallowed
   extensions with 400 before persisting anything.  The source never calls
   `allowed_file` in `generate_documents` (compare lines 67 and 103 of the
   preview handlers with lines 139-165): files with disallowed extensions
   are saved into the work directory and processed. -/

/-- C1 — refuted by evaluation: both uploaded filenames end in `.txt`, which
`allowed_file` rejects, yet `generate_documents` persists both files into the
scratch work directory and runs the full pipeline to a `200` archive response
(the oracles stand for a well-formed DOCX/CSV whose names merely end in
`.txt`).  The handler contains no extension check at all. -/
theorem generate_skips_extension_check :
    allowed_file "template.txt" = false ∧
    allowed_file "data.txt" = false ∧
    (generate_documents (fun _ => none) (.ok [[("Name", "A")]]) (.ok ["Name"])
        (fun _ => .ok "DOCBYTES") (fun _ => none)
        (some "template.txt") (some "data.txt") none).persisted
      = ["template.txt", "data.txt"] ∧
    (generate_documents (fun _ => none) (.ok [[("Name", "A")]]) (.ok ["Name"])
        (fun _ => .ok "DOCBYTES") (fun _ => none)
        (some "template.txt") (some "data.txt") none).status = 200 := by
  refine ⟨by decide, by decide, ?_, ?_⟩ <;> decide

/- ------------------------------------------------------------------ -/
/- Claim C2: the work directory must be removed on every exit path.  The
   early `return` of the zero-successful-rows branch (app.py lines 224-225)
   sits inside the `try` block and neither calls `shutil.rmtree` nor raises,
   so on that path the directory survives the request. -/

/-- C2 — refuted on the zero-successful-rows path: with valid uploads whose
single row fails to render, the handler answers `400` with the work directory
created but never removed; on the success path and on the unexpected-exception
path (here: the CSV parse raising) the directory is removed as claimed. -/
theorem workdir_leaked_on_zero_success :
    ((generate_documents (fun _ => none) (.ok [[("Name", "A")]]) (.ok ["Name"])
        (fun _ => .error "render exploded") (fun _ => none)
        (some "t.docx") (some "d.csv") none).status = 400 ∧
     (generate_documents (fun _ => none) (.ok [[("Name", "A")]]) (.ok ["Name"])
        (fun _ => .error "render exploded") (fun _ => none)
        (some "t.docx") (some "d.csv") none).dirCreated = true ∧
     (generate_documents (fun _ => none) (.ok [[("Name", "A")]]) (.ok ["Name"])
        (fun _ => .error "render exploded") (fun _ => none)
        (some "t.docx") (some "d.csv") none).dirRemoved = false) ∧
    ((generate_documents (fun _ => none) (.ok [[("Name", "A")]]) (.ok ["Name"])
        (fun _ => .ok "DOCBYTES") (fun _ => none)
        (some "t.docx") (some "d.csv") none).status = 200 ∧
     (generate_documents (fun _ => none) (.ok [[("Name", "A")]]) (.ok ["Name"])
        (fun _ => .ok "DOCBYTES") (fun _ => none)
        (some "t.docx") (some "d.csv") none).dirRemoved = true) ∧
    ((generate_documents (fun _ => none) (.error "csv parse failed")
        (.ok ["Name"]) (fun _ => .ok "DOCBYTES") (fun _ => none)
        (some "t.docx") (some "d.csv") none).status = 400 ∧
     (generate_documents (fun _ => none) (.error "csv parse failed")
        (.ok ["Name"]) (fun _ => .ok "DOCBYTES") (fun _ => none)
        (some "t.docx") (some "d.csv") none).dirRemoved = true) := by
  decide

/- ------------------------------------------------------------------ -/
/- Claim C4: resolution of placeholders in the render context. -/

/-- The char-level `lower` agrees with `String.toLower`, so `allowed_file`
is the source's `filename.rsplit('.', 1)[1].lower()` check. -/
theorem lower_eq_toLower (s : String) : lower s = s.toLower := by
  cases s with
  | mk l =>
    rw [String.toLower, String.map_eq]
    rfl

/-- Looking up a key in an association list built by pairing each element of
`l` with `g` of it returns `some (g k)` whenever `k ∈ l`. -/
theorem lookup_map_pair (g : String → String) (l : List String) (k : String)
    (hk : k ∈ l) :
    lookup (l.map (fun v => (v, g v))) k = some (g k) := by
  induction l with
  | nil => cases hk
  | cons p rest ih =>
    simp only [List.map_cons, lookup, List.find?_cons]
    by_cases hp : p = k
    · subst hp
      simp
    · have hbeq : (p == k) = false := beq_false_of_ne hp
      simp only [hbeq]
      have hk' : k ∈ rest := by
        cases hk with
        | head => exact absurd rfl hp
        | tail _ h => exact h
      simpa [lookup] using ih hk'

/-- C4 — for every row and every placeholder of the template, the render
context resolves the placeholder through the field mapping (defaulting to the
placeholder name itself): to the row's string value at that column when the
column exists in the row, and to the literal marker `[<placeholder>]` when it
does not. -/
theorem render_context_resolution (phs : List String)
    (fm : List (String × String)) (row : Row) (v : String) (hv : v ∈ phs) :
    (∀ val, lookup row ((lookup fm v).getD v) = some val →
        lookup (build_context phs fm row) v = some val) ∧
    (lookup row ((lookup fm v).getD v) = none →
        lookup (build_context phs fm row) v = some ("[" ++ v ++ "]")) := by
  have hctx : build_context phs fm row
      = phs.map (fun v' => (v',
          match lookup row ((lookup fm v').getD v') with
          | some val => val
          | none => "[" ++ v' ++ "]")) := by
    simp only [build_context]
    apply List.map_congr_left
    intro a _
    cases h : lookup row ((lookup fm a).getD a) <;> simp [h]
  constructor
  · intro val hval
    rw [hctx, lookup_map_pair _ _ _ hv, hval]
  · intro hnone
    rw [hctx, lookup_map_pair _ _ _ hv, hnone]

/-- Witness for C4, matching the spec's own example: placeholder `Phone`
absent from both the mapping and the row resolves to `"[Phone]"`; a mapped
placeholder resolves to the mapped column's value. -/
theorem render_context_resolution_witness :
    lookup (build_context ["Phone"] [] [("Name", "Alice")]) "Phone"
      = some "[Phone]" ∧
    lookup (build_context ["Name"] [("Name", "FullName")]
        [("FullName", "Alice")]) "Name" = some "Alice" :=
  ⟨(render_context_resolution ["Phone"] [] [("Name", "Alice")] "Phone"
      (by decide)).2 (by decide),
   (render_context_resolution ["Name"] [("Name", "FullName")]
      [("FullName", "Alice")] "Name" (by decide)).1 "Alice" (by decide)⟩

/- ------------------------------------------------------------------ -/
/- Claim C5: the derived output filename. -/

/-- Decimal digit characters are not in the sanitized class. -/
theorem digitChar_not_bad (n : Nat) (h : n < 10) :
    Nat.digitChar n ∉ badChars := by
  interval_cases n <;> decide

/-- Every character `Nat.toDigitsCore` emits over those already present is a
decimal digit, hence outside the sanitized class. -/
theorem toDigitsCore_not_bad (fuel : Nat) :
    ∀ (n : Nat) (ds : List Char), (∀ c ∈ ds, c ∉ badChars) →
      ∀ c ∈ Nat.toDigitsCore 10 fuel n ds, c ∉ badChars := by
  induction fuel with
  | zero =>
    intro n ds hds c hc
    rw [Nat.toDigitsCore.eq_def] at hc
    exact hds c hc
  | succ fuel ih =>
    intro n ds hds c hc
    rw [Nat.toDigitsCore.eq_def] at hc
    simp only at hc
    have hcons : ∀ c ∈ Nat.digitChar (n % 10) :: ds, c ∉ badChars := by
      intro c hc'
      cases hc' with
      | head => exact digitChar_not_bad _ (Nat.mod_lt _ (by norm_num))
      | tail _ h => exact hds c h
    by_cases hz : n / 10 = 0
    · rw [if_pos hz] at hc
      exact hcons c hc
    · rw [if_neg hz] at hc
      exact ih _ _ hcons c hc

/-- The decimal rendering of a natural number contains no character of the
sanitized class. -/
theorem toString_nat_not_bad (n : Nat) :
    ∀ c ∈ (toString n).data, c ∉ badChars := by
  have : (toString n).data = Nat.toDigitsCore 10 (n + 1) n [] := rfl
  rw [this]
  exact toDigitsCore_not_bad (n + 1) n [] (by intro c hc; cases hc)

/-- The sanitizer is the identity on strings without characters of the
class. -/
theorem sanitize_eq_self (s : String) (h : ∀ c ∈ s.data, c ∉ badChars) :
    sanitize_filename s = s := by
  cases s with
  | mk l =>
    simp only [sanitize_filename]
    congr 1
    conv_rhs => rw [← List.map_id l]
    apply List.map_congr_left
    intro a ha
    simp [h a ha]

/-- The fallback names `row_<idx>` and `doc_<idx>` pass the sanitizer
unchanged. -/
theorem sanitize_fallback (pre : String) (idx : Nat)
    (hpre : ∀ c ∈ pre.data, c ∉ badChars) :
    sanitize_filename (pre ++ toString idx) = pre ++ toString idx := by
  apply sanitize_eq_self
  intro c hc
  rw [String.data_append] at hc
  rcases List.mem_append.mp hc with h | h
  · exact hpre c h
  · exact toString_nat_not_bad idx c h

/-- C5 — for every successfully rendered row, the document is written under
the output directory with base name `<email>_<org>.docx`, where `<email>` is
the sanitized value of the row's `Email` field (or the literal `row_<idx>`
when that field is absent) and `<org>` is the sanitized value of the row's
`Организация` field (or the literal `doc_<idx>` when that field is absent or
its value is the empty string). -/
theorem output_name_derivation
    (render : List (String × String) → Except String String)
    (convert : String → Option String)
    (phs : List String) (fm : List (String × String))
    (st : GenState) (idx : Nat) (row : Row) (content : String)
    (h : render (build_context phs fm row) = .ok content) :
    (process_row render convert phs fm st (idx, row)).docx_files
      = fswrite st.docx_files
          ((match lookup row "Email" with
            | some e => sanitize_filename e
            | none => "row_" ++ toString idx)
           ++ "_" ++
           (match lookup row "Организация" with
            | some o => if o = "" then "doc_" ++ toString idx
                        else sanitize_filename o
            | none => "doc_" ++ toString idx)
           ++ ".docx") content := by
  have hemail : sanitize_filename ((lookup row "Email").getD ("row_" ++ toString idx))
      = (match lookup row "Email" with
         | some e => sanitize_filename e
         | none => "row_" ++ toString idx) := by
    cases he : lookup row "Email" with
    | some e => simp
    | none =>
      simp only [Option.getD]
      exact sanitize_fallback "row_" idx (by decide)
  have horg : (if (lookup row "Организация").getD "" ≠ ""
          then sanitize_filename ((lookup row "Организация").getD "")
          else "doc_" ++ toString idx)
      = (match lookup row "Организация" with
         | some o => if o = "" then "doc_" ++ toString idx
                     else sanitize_filename o
         | none => "doc_" ++ toString idx) := by
    cases ho : lookup row "Организация" with
    | some o =>
      by_cases hoe : o = "" <;> simp [hoe]
    | none => simp
  simp only [process_row, h, output_base, hemail, horg]

/-- Witness for C5: a row without an `Email` field and with an organization
value containing a slash; the document lands at `row_3_Acme_Inc.docx`. -/
theorem output_name_derivation_witness :
    (process_row (fun _ => .ok "DOCBYTES") (fun _ => none) [] []
        ⟨0, [], [], []⟩ (3, [("Организация", "Acme/Inc")])).docx_files
      = [("row_3_Acme_Inc.docx", "DOCBYTES")] := by
  have h := output_name_derivation (fun _ => .ok "DOCBYTES") (fun _ => none)
    [] [] ⟨0, [], [], []⟩ 3 [("Организация", "Acme/Inc")] "DOCBYTES" rfl
  rw [h]
  decide

/- ------------------------------------------------------------------ -/
/- Claim C3: row failures are collected with 1-based indices and the batch
   continues; zero successes abort with 400 citing at most the first three
   errors; otherwise the archive is returned regardless of failures. -/

/-- C3 — (i) a row whose rendering fails appends exactly one error entry
built from the row's 1-based index and the message, leaving the success
count and the output files untouched; (ii) the loop then continues with the
remaining rows; (iii) if after all rows the success count is zero, the
handler answers `400` with a message citing at most the first three row
errors; (iv) if at least one row succeeded, the response is the archive of
the output tree (status `200`) no matter how many rows failed. -/
theorem row_failure_policy
    (render : List (String × String) → Except String String)
    (convert : String → Option String)
    (phs : List String) (fm : List (String × String)) :
    (∀ (st : GenState) (idx : Nat) (row : Row) (e : String),
        render (build_context phs fm row) = .error e →
        process_row render convert phs fm st (idx, row)
          = { st with error_list :=
                st.error_list
                  ++ ["Строка " ++ toString (idx + 1) ++ ": " ++ e] }) ∧
    (∀ (st : GenState) (r : Nat × Row) (rest : List (Nat × Row)),
        (r :: rest).foldl (process_row render convert phs fm) st
          = rest.foldl (process_row render convert phs fm)
              (process_row render convert phs fm st r)) ∧
    (∀ (jsonParse : String → Option (List (String × String)))
        (rows : List Row) (t c : String) (m : Option String),
        t ≠ "" → c ≠ "" → fm = parse_mapping jsonParse m →
        (let st := rows.enum.foldl (process_row render convert phs fm)
            ⟨0, [], [], []⟩
         (st.success_count = 0 →
            generate_documents jsonParse (.ok rows) (.ok phs) render convert
                (some t) (some c) m
              = ⟨400, some ("Не удалось создать документы. Ошибки: "
                  ++ String.intercalate ", " (st.error_list.take 3)),
                  none, true, false, [t, c]⟩) ∧
         (st.success_count ≠ 0 →
            generate_documents jsonParse (.ok rows) (.ok phs) render convert
                (some t) (some c) m
              = ⟨200, none, some (archive st), true, true, [t, c]⟩))) := by
  refine ⟨?_, ?_, ?_⟩
  · intro st idx row e h
    simp only [process_row, h]
  · intro st r rest
    rw [List.foldl_cons]
  · intro jsonParse rows t c m ht hc hfm
    have hcond : ¬(t = "" ∨ c = "") := by
      rintro (h | h)
      · exact ht h
      · exact hc h
    constructor
    · intro hzero
      simp only [generate_documents, if_neg hcond, ← hfm, if_pos hzero]
    · intro hpos
      simp only [generate_documents, if_neg hcond, ← hfm, if_neg hpos]

/-- Witness for C3: a failing row at index 0 is recorded as `Строка 1`, and
a request whose only row fails answers `400` citing it; a request with one
success and one failure still answers `200` with the archive. -/
theorem row_failure_policy_witness :
    process_row (fun _ => .error "boom") (fun _ => none) [] []
        ⟨0, [], [], []⟩ (0, [("Name", "A")])
      = ⟨0, ["Строка 1: boom"], [], []⟩ ∧
    (generate_documents (fun _ => none) (.ok [[("Name", "A")]]) (.ok [])
        (fun _ => .error "boom") (fun _ => none)
        (some "t.docx") (some "d.csv") none).status = 400 ∧
    (generate_documents (fun _ => none)
        (.ok [[("Письмо", "halt")], [("Name", "A")]]) (.ok ["Письмо"])
        (fun ctx => if ctx = [("Письмо", "halt")] then .error "boom"
                    else .ok "DOCBYTES")
        (fun _ => none)
        (some "t.docx") (some "d.csv") none).status = 200 := by
  have h1 := (row_failure_policy (fun _ => .error "boom") (fun _ => none)
    [] []).1 ⟨0, [], [], []⟩ 0 [("Name", "A")] "boom" rfl
  have h2 := ((row_failure_policy (fun _ => .error "boom") (fun _ => none)
    [] []).2.2 (fun _ => none) [[("Name", "A")]] "t.docx" "d.csv" none
    (by decide) (by decide) (by decide)).1 (by decide)
  have h3 := ((row_failure_policy
    (fun ctx => if ctx = [("Письмо", "halt")] then .error "boom"
                else .ok "DOCBYTES")
    (fun _ => none) ["Письмо"] []).2.2 (fun _ => none)
    [[("Письмо", "halt")], [("Name", "A")]] "t.docx" "d.csv" none
    (by decide) (by decide) (by decide)).2 (by decide)
  refine ⟨by rw [h1]; decide, by rw [h2], by rw [h3]⟩

/- ------------------------------------------------------------------ -/
/- Claim C8: an absent or unparsable mapping form field silently becomes
   the empty mapping and is never a reason for rejection. -/

/-- C8 — when the `mapping` form field is absent, or present but not
parseable as JSON, the field mapping used for generation is the empty
mapping, and the handler behaves exactly as if an empty mapping had been
supplied — in particular the request is not rejected for that reason. -/
theorem mapping_defaults_to_empty
    (jsonParse : String → Option (List (String × String)))
    (csvParse : Except String (List Row))
    (placeholders : Except String (List String))
    (render : List (String × String) → Except String String)
    (convert : String → Option String)
    (template? csv? : Option String) (s : String)
    (hs : jsonParse s = none) :
    parse_mapping jsonParse none = [] ∧
    parse_mapping jsonParse (some s) = [] ∧
    generate_documents jsonParse csvParse placeholders render convert
        template? csv? none
      = generate_documents jsonParse csvParse placeholders render convert
          template? csv? (some s) := by
  have h1 : parse_mapping jsonParse none = [] := by
    simp [parse_mapping]
  have h2 : parse_mapping jsonParse (some s) = [] := by
    show (if s ≠ "\x7b\x7d" then (jsonParse s).getD [] else []) = []
    by_cases hcase : s = "\x7b\x7d"
    · simp [hcase]
    · simp [hcase, hs]
  refine ⟨h1, h2, ?_⟩
  cases template? <;> cases csv? <;>
    simp [generate_documents, h1, h2]

/-- Witness for C8: with a `json.loads` oracle rejecting `not-json`, the
absent-field and unparsable-field requests both yield the empty mapping and
the same outcome. -/
theorem mapping_defaults_to_empty_witness :
    parse_mapping (fun _ => none) none = [] ∧
    parse_mapping (fun _ => none) (some "not-json") = [] ∧
    generate_documents (fun _ => none) (.ok [[("Name", "A")]]) (.ok ["Name"])
        (fun _ => .ok "DOCBYTES") (fun _ => none)
        (some "t.docx") (some "d.csv") none
      = generate_documents (fun _ => none) (.ok [[("Name", "A")]])
          (.ok ["Name"]) (fun _ => .ok "DOCBYTES") (fun _ => none)
          (some "t.docx") (some "d.csv") (some "not-json") :=
  mapping_defaults_to_empty (fun _ => none) (.ok [[("Name", "A")]])
    (.ok ["Name"]) (fun _ => .ok "DOCBYTES") (fun _ => none)
    (some "t.docx") (some "d.csv") "not-json" rfl

/- ------------------------------------------------------------------ -/
/- Claim C9: identical derived base names collide silently. -/

/-- C9 — when two successfully rendered rows derive the same base name, both
are counted as successes, but the second write goes to the same path and
overwrites the first: the output directory ends up with a single `.docx`
file holding the later row's content, so the archive contains fewer DOCX
files than the reported success count. -/
theorem duplicate_basename_overwrites
    (render : List (String × String) → Except String String)
    (convert : String → Option String)
    (phs : List String) (fm : List (String × String))
    (r0 r1 : Row) (c0 c1 : String)
    (h0 : render (build_context phs fm r0) = .ok c0)
    (h1 : render (build_context phs fm r1) = .ok c1)
    (hname : output_base r1 1 = output_base r0 0) :
    (([r0, r1] : List Row).enum.foldl
        (process_row render convert phs fm) ⟨0, [], [], []⟩).success_count = 2 ∧
    (([r0, r1] : List Row).enum.foldl
        (process_row render convert phs fm) ⟨0, [], [], []⟩).docx_files
      = [(output_base r0 0 ++ ".docx", c1)] ∧
    (([r0, r1] : List Row).enum.foldl
        (process_row render convert phs fm) ⟨0, [], [], []⟩).docx_files.length
      < (([r0, r1] : List Row).enum.foldl
          (process_row render convert phs fm) ⟨0, [], [], []⟩).success_count := by
  have henum : ([r0, r1] : List Row).enum = [(0, r0), (1, r1)] := rfl
  have hd : (([r0, r1] : List Row).enum.foldl
      (process_row render convert phs fm) ⟨0, [], [], []⟩).docx_files
      = [(output_base r0 0 ++ ".docx", c1)] := by
    rw [henum, List.foldl_cons, List.foldl_cons, List.foldl_nil]
    simp only [process_row, h0, h1, hname]
    simp [fswrite]
  have hs : (([r0, r1] : List Row).enum.foldl
      (process_row render convert phs fm) ⟨0, [], [], []⟩).success_count = 2 := by
    rw [henum, List.foldl_cons, List.foldl_cons, List.foldl_nil]
    simp only [process_row, h0, h1]
  refine ⟨hs, hd, ?_⟩
  rw [hd, hs]
  simp

/-- Witness for C9: two rows with the same `Email` and `Организация` values
but different data; the later row's rendering wins and only one DOCX file
exists while two successes are reported. -/
theorem duplicate_basename_overwrites_witness :
    (([[("Email", "a"), ("Организация", "X"), ("N", "1")],
       [("Email", "a"), ("Организация", "X"), ("N", "2")]] : List Row).enum.foldl
        (process_row (fun ctx => .ok ((lookup ctx "N").getD "?"))
          (fun _ => none) ["N"] []) ⟨0, [], [], []⟩).success_count = 2 ∧
    (([[("Email", "a"), ("Организация", "X"), ("N", "1")],
       [("Email", "a"), ("Организация", "X"), ("N", "2")]] : List Row).enum.foldl
        (process_row (fun ctx => .ok ((lookup ctx "N").getD "?"))
          (fun _ => none) ["N"] []) ⟨0, [], [], []⟩).docx_files
      = [("a_X.docx", "2")] := by
  have h := duplicate_basename_overwrites
    (fun ctx => .ok ((lookup ctx "N").getD "?")) (fun _ => none) ["N"] []
    [("Email", "a"), ("Организация", "X"), ("N", "1")]
    [("Email", "a"), ("Организация", "X"), ("N", "2")]
    "1" "2" rfl rfl (by decide)
  refine ⟨h.1, ?_⟩
  rw [h.2.1]
  decide

/- ------------------------------------------------------------------ -/
/- Claim C10: filenames without a dot fail the extension check, both preview
   endpoints reject them with 400 before persisting, and the check looks
   only at the lowercased substring after the last dot. -/

/-- C10 — for every filename containing no `'.'`, `allowed_file` is `false`
and both preview endpoints answer `400` without persisting the upload;
moreover, for filenames that do contain a dot, `allowed_file` depends only
on the lowercased substring after the last dot. -/
theorem no_dot_filename_rejected (name : String)
    (h : name.data.contains '.' = false)
    (extractVars : Except String (List String))
    (csvData : Except String (List String × List (List String))) :
    allowed_file name = false ∧
    (preview_template extractVars (some name)).status = 400 ∧
    (preview_template extractVars (some name)).persisted = false ∧
    (preview_csv csvData (some name)).status = 400 ∧
    (preview_csv csvData (some name)).persisted = false ∧
    (∀ f g : String, f.data.contains '.' = true → g.data.contains '.' = true →
      lower (afterLastDot f) = lower (afterLastDot g) →
      allowed_file f = allowed_file g) := by
  have hall : allowed_file name = false := by
    show (name.data.contains '.'
        && ALLOWED_EXTENSIONS.contains (lower (afterLastDot name))) = false
    rw [h, Bool.false_and]
  refine ⟨hall, ?_, ?_, ?_, ?_, ?_⟩
  · by_cases hn : name = "" <;> simp [preview_template, hn, hall]
  · by_cases hn : name = "" <;> simp [preview_template, hn, hall]
  · by_cases hn : name = "" <;> simp [preview_csv, hn, hall]
  · by_cases hn : name = "" <;> simp [preview_csv, hn, hall]
  · intro f g hf hg he
    show (f.data.contains '.'
        && ALLOWED_EXTENSIONS.contains (lower (afterLastDot f)))
      = (g.data.contains '.'
        && ALLOWED_EXTENSIONS.contains (lower (afterLastDot g)))
    rw [hf, hg, he]

/-- Witness for C10: the extensionless filename `README` is rejected
unpersisted by both previews, and the extension check identifies `A.DOCX`
with `b.docx`. -/
theorem no_dot_filename_rejected_witness :
    allowed_file "README" = false ∧
    (preview_template (.ok ["Name"]) (some "README")).status = 400 ∧
    (preview_template (.ok ["Name"]) (some "README")).persisted = false ∧
    (preview_csv (.ok (["Name"], [["A"]])) (some "README")).status = 400 ∧
    (preview_csv (.ok (["Name"], [["A"]])) (some "README")).persisted = false ∧
    allowed_file "A.DOCX" = allowed_file "b.docx" := by
  have h := no_dot_filename_rejected "README" (by decide)
    (.ok ["Name"]) (.ok (["Name"], [["A"]]))
  exact ⟨h.1, h.2.1, h.2.2.1, h.2.2.2.1, h.2.2.2.2.1,
    h.2.2.2.2.2 "A.DOCX" "b.docx" (by decide) (by decide) (by decide)⟩

end MailGen
